import Mathlib

/-!
Shallow embedding of the `market_metrics` repository core:
the DateRange resolver (`config.py`) and the indicator engine
(`__init__.py` plus the indicator functions whose module `calculator.py`
is exercised by `test_calculator.py`).

Python floats that carry NaN/"undefined" information are embedded as
`Option ℚ` (`none` = NaN / not-available); all finite arithmetic is exact
rational arithmetic.  Calendar datetimes are embedded as an epoch day
number (`ℤ`) plus a seconds-of-day component, with the standard Gregorian
civil-date conversion used where the Python code reads calendar fields.
-/

namespace MarketMetrics

/-! ## Calendar arithmetic

`datetime` values are `Timestamp`s: a day number (days since 1970-01-01)
plus a time-of-day in seconds.  `strftime("%Y-%m-%d")` corresponds to
taking the civil (year, month, day) triple of the day number and
dropping `secondsOfDay`. -/

/-- A `datetime.datetime` instant: epoch day number plus time of day. -/
structure Timestamp where
  days : ℤ
  secondsOfDay : ℕ
deriving DecidableEq, Repr

/-- Civil (proleptic Gregorian) date from an epoch day number:
returns `(year, month, day)`.  Standard era-based conversion. -/
def civilFromDays (z0 : ℤ) : ℤ × ℤ × ℤ :=
  let z := z0 + 719468
  let era := Int.fdiv z 146097
  let doe := z - era * 146097
  let yoe := (doe - doe / 1460 + doe / 36524 - doe / 146096) / 365
  let y := yoe + era * 400
  let doy := doe - (365 * yoe + yoe / 4 - yoe / 100)
  let mp := (5 * doy + 2) / 153
  let d := doy - (153 * mp + 2) / 5 + 1
  let m := mp + (if mp < 10 then 3 else -9)
  (y + (if m ≤ 2 then 1 else 0), m, d)

/-- Epoch day number of a civil (year, month, day) date.
Inverse of `civilFromDays`. -/
def daysFromCivil (y m d : ℤ) : ℤ :=
  let y' := y - (if m ≤ 2 then 1 else 0)
  let era := Int.fdiv y' 400
  let yoe := y' - era * 400
  let mp := Int.fmod (m + 9) 12
  let doy := (153 * mp + 2) / 5 + d - 1
  let doe := yoe * 365 + yoe / 4 - yoe / 100 + doy
  era * 146097 + doe - 719468

/-- The calendar year shown by `strftime` for an epoch day number
(`datetime.year`). -/
def yearOfDays (z : ℤ) : ℤ := (civilFromDays z).1

/-! ## DateRange resolver (`config.py`)

`Config._calculate_start_date` parses the period token with
`re.match(r"(\d+)([dmy])", period)`: one or more leading digits followed
by a single character in `{d, m, y}`; any trailing characters are
ignored.  Because a digit is never `d`/`m`/`y`, the regex engine's
backtracking over `\d+` can never succeed after the greedy match fails,
so the match is equivalent to: take the maximal leading digit run, then
require the next character to be in `{d, m, y}`. -/

/-- The `ValueError`s raised by `Config._calculate_start_date`.
`unknownUnit` embeds the `else: raise ValueError(f"Unknown time unit: ...")`
branch, which is unreachable because the regex only matches `d`/`m`/`y`. -/
inductive PeriodError
  | invalidFormat (token : String)
  | unknownUnit (unit : Char)
deriving DecidableEq, Repr

/-- Numeric value of a digit run, as `int(match.group(1))`. -/
def digitsToNat (ds : List Char) : ℕ :=
  ds.foldl (fun acc c => 10 * acc + (c.toNat - 48)) 0

/-- `re.match(r"(\d+)([dmy])", period)`: `some (n, unit)` on success. -/
def parsePeriod (s : List Char) : Option (ℕ × Char) :=
  let digits := s.takeWhile Char.isDigit
  let rest := s.dropWhile Char.isDigit
  if digits.isEmpty then none
  else
    match rest with
    | [] => none
    | c :: _ => if c = 'd' ∨ c = 'm' ∨ c = 'y' then some (digitsToNat digits, c) else none

/-- `Config._calculate_start_date(period)` with "now" passed explicitly:
the epoch day number of the returned `%Y-%m-%d` start-date string. -/
def calculateStartDays (now : Timestamp) (period : String) : Except PeriodError ℤ :=
  if period = "ytd" then .ok (daysFromCivil (yearOfDays now.days) 1 1)
  else if period = "max" then .ok (daysFromCivil 1990 1 1)
  else
    match parsePeriod period.data with
    | none => .error (.invalidFormat period)
    | some (n, u) =>
      if u = 'd' then .ok (now.days - n)
      else if u = 'm' then .ok (now.days - n * 30)
      else if u = 'y' then .ok (now.days - n * 365)
      else .error (.unknownUnit u)

/-- The spec's `DateRange`: start and end as epoch day numbers of the
calendar dates the `Config` stores as `%Y-%m-%d` strings, plus the
period length in days. -/
structure DateRange where
  startDays : ℤ
  endDays : ℤ
  lengthInDays : ℤ
deriving DecidableEq, Repr

/-- `Config.__post_init__`: sets `end` to today's calendar date and
`start` via `_calculate_start_date`.  The `lengthInDays` field is
modelled from the spec: the `period_in_days` attribute read by
`test_config.py` and `main` is absent from the sources under `src/`;
the spec defines `length_in_days = end - start` in whole days. -/
def resolve (now : Timestamp) (period : String) : Except PeriodError DateRange :=
  match calculateStartDays now period with
  | .error e => .error e
  | .ok s => .ok ⟨s, now.days, now.days - s⟩

/-- Day-count factor of a parsed period unit: `d` → 1, `m` → 30 (month
approximation), `y` → 365 (year approximation). -/
def unitFactor (u : Char) : ℤ :=
  if u = 'd' then 1 else if u = 'm' then 30 else 365

/-! ## Indicator engine: series plumbing

A pandas float series is a `List (Option ℚ)`; `none` is NaN. -/

/-- Collect a list of options: `some` of the values if every entry is
defined, `none` otherwise (a NaN anywhere poisons the aggregate). -/
def optList : List (Option ℚ) → Option (List ℚ)
  | [] => some []
  | none :: _ => none
  | some x :: rest => (optList rest).map (fun l => x :: l)

/-- `series.rolling(window=w).mean()`: at index `t` the mean of the `w`
trailing entries (current included); NaN while fewer than `w` entries
precede, or when any entry in the window is NaN. -/
def rollingMean (w : ℕ) (xs : List (Option ℚ)) : List (Option ℚ) :=
  (List.range xs.length).map (fun t =>
    if t + 1 < w then none
    else
      match optList ((List.range w).map (fun j => xs.getD (t + 1 - w + j) none)) with
      | none => none
      | some vs => some (vs.sum / w))

/-- `series.diff()` / `close[t] - close[t-1]`: NaN at index 0. -/
def diffs (ps : List ℚ) : List (Option ℚ) :=
  (List.range ps.length).map (fun i =>
    if i = 0 then none else some (ps.getD i 0 - ps.getD (i - 1) 0))

/-- Per-day gains: `max(delta, 0)`, NaN where `delta` is NaN. -/
def gains (ps : List ℚ) : List (Option ℚ) :=
  (diffs ps).map (Option.map (fun d => max d 0))

/-- Per-day losses: `max(-delta, 0)`, NaN where `delta` is NaN. -/
def losses (ps : List ℚ) : List (Option ℚ) :=
  (diffs ps).map (Option.map (fun d => max (-d) 0))

/-- Modelled from the spec: `calculate_rsi` lives in `calculator.py`,
which is absent from the sources under `src/` (only its tests are
present).  Per the spec: `avg_gain`/`avg_loss` are 14-window rolling
means of gains/losses, `rs = avg_gain / avg_loss`,
`rsi = 100 - 100/(1+rs)`; `0/0` gives NaN, and `avg_gain > 0` with
`avg_loss == 0` saturates at 100 (float `x/0 = inf`, `100/(1+inf) = 0`). -/
def calculate_rsi (ps : List ℚ) : List (Option ℚ) :=
  let avgGain := rollingMean 14 (gains ps)
  let avgLoss := rollingMean 14 (losses ps)
  (List.range ps.length).map (fun t =>
    match avgGain.getD t none, avgLoss.getD t none with
    | some g, some l =>
      if l = 0 then (if g = 0 then none else some 100)
      else some (100 - 100 / (1 + g / l))
    | _, _ => none)

/-- `series.ewm(span=span, adjust=False).mean()` after the seed:
`ema[t] = alpha * x[t] + (1 - alpha) * ema[t-1]`. -/
def emaAux (alpha : ℚ) (prev : ℚ) : List ℚ → List ℚ
  | [] => []
  | x :: rest =>
    let v := alpha * x + (1 - alpha) * prev
    v :: emaAux alpha v rest

/-- Exponential moving average with `alpha = 2/(span+1)`, no bias
adjustment, seeded with the first value. -/
def ema (span : ℕ) : List ℚ → List ℚ
  | [] => []
  | x :: rest => x :: emaAux (2 / (span + 1)) x rest

/-- Modelled from the spec: `calculate_macd` lives in `calculator.py`,
which is absent from the sources under `src/` (only its tests are
present).  Per the spec: `macd = ema(close, 12) - ema(close, 26)`,
`signal_line = ema(macd, 9)`. -/
def calculate_macd (ps : List ℚ) : List ℚ × List ℚ :=
  let macd := List.zipWith (fun a b => a - b) (ema 12 ps) (ema 26 ps)
  (macd, ema 9 macd)

/-! ## Crossover detection (`__init__.py` lines 41-42 and 287-288)

Pandas element-wise `<`/`>` on floats is `False` whenever either operand
is NaN, and `shift(1)` puts NaN at index 0. -/

/-- Element-wise `x < y`: false when either side is NaN. -/
def optLt (x y : Option ℚ) : Bool :=
  match x, y with
  | some a, some b => decide (a < b)
  | _, _ => false

/-- Element-wise `x > y`: false when either side is NaN. -/
def optGt (x y : Option ℚ) : Bool :=
  match x, y with
  | some a, some b => decide (b < a)
  | _, _ => false

/-- `series.shift(1)` read at index `t`: the entry at `t-1`, NaN at 0. -/
def shiftPrev (xs : List (Option ℚ)) (t : ℕ) : Option ℚ :=
  if t = 0 then none else xs.getD (t - 1) none

/-- `(a.shift(1) < b.shift(1)) & (a > b)`. -/
def golden_cross (a b : List (Option ℚ)) : List Bool :=
  (List.range a.length).map (fun t =>
    optLt (shiftPrev a t) (shiftPrev b t) && optGt (a.getD t none) (b.getD t none))

/-- `(a.shift(1) > b.shift(1)) & (a < b)`. -/
def death_cross (a b : List (Option ℚ)) : List Bool :=
  (List.range a.length).map (fun t =>
    optGt (shiftPrev a t) (shiftPrev b t) && optLt (a.getD t none) (b.getD t none))

/-! ## Fibonacci retracement levels (`__init__.py` lines 59-63) -/

/-- The five fixed retracement ratios. -/
def fibRatios : List ℚ := [236/1000, 382/1000, 5/10, 618/1000, 786/1000]

/-- `max_price - (max_price - min_price) * level` for each ratio. -/
def fibLevels (maxPrice minPrice : ℚ) : List ℚ :=
  fibRatios.map (fun level => maxPrice - (maxPrice - minPrice) * level)

/-! ## Annualized volatility (`__init__.py` lines 14-16 and 34-37) -/

/-- The sentinel the code reports when no annualization is performed:
the float `0.0`. -/
def NA_ANNUAL_VOLATILITY : ℚ := 0

def TRADING_DAYS_IN_YEAR : ℕ := 252

def YEAR_IN_DAYS : ℤ := 365

/-- `series.pct_change()` with the leading NaN already dropped (pandas
`std` skips it): entry `i` is `(p[i+1] - p[i]) / p[i]`.  A zero previous
price yields float `inf`/NaN; both are embedded as `none`, which then
poisons the standard deviation as they poison it in floats. -/
def pctChanges (ps : List ℚ) : List (Option ℚ) :=
  (List.range (ps.length - 1)).map (fun i =>
    if ps.getD i 0 = 0 then none
    else some ((ps.getD (i + 1) 0 - ps.getD i 0) / ps.getD i 0))

/-- Sample variance (`ddof=1`, pandas default): NaN with fewer than two
observations. -/
def sampleVar (xs : List ℚ) : Option ℚ :=
  if xs.length < 2 then none
  else some ((xs.map (fun x => (x - xs.sum / xs.length) ^ 2)).sum / (xs.length - 1))

/-- Variance of daily percentage change, `pct_change().std() ** 2`:
NaN when any change is undefined or fewer than two changes exist. -/
def dailyVar (ps : List ℚ) : Option ℚ :=
  match optList (pctChanges ps) with
  | none => none
  | some xs => sampleVar xs

/-- `annual_volatility`: `NA_ANNUAL_VOLATILITY` unless
`period_in_days >= YEAR_IN_DAYS`, in which case
`pct_change().std() * sqrt(252)`. -/
noncomputable def annualVolatility (periodInDays : ℤ) (ps : List ℚ) : Option ℝ :=
  if periodInDays ≥ YEAR_IN_DAYS then
    (dailyVar ps).map (fun v => Real.sqrt (v : ℝ) * Real.sqrt (TRADING_DAYS_IN_YEAR : ℝ))
  else some ((NA_ANNUAL_VOLATILITY : ℚ) : ℝ)

/-! ## The indicator pipeline of `plot_stock_data` (`__init__.py`)

The computational core, with plotting stripped: moving averages and
crosses, RSI, MACD, Bollinger inputs, extremes, Fibonacci levels, and
finally the buy/sell-signal loop, whose body evaluates
`company_history.index[-1]` and `company_close_prices.iloc[-1]` — a
last-element access that raises `IndexError` on an empty series. -/

/-- The runtime error the pipeline can raise.  The code defines no
`InsufficientDataError`; the only failure is the `IndexError` from the
last-element accesses in the Fibonacci-signal loop. -/
inductive PlotError
  | indexError
deriving DecidableEq, Repr

/-- The outputs of one `plot_stock_data` invocation that depend on the
price series. -/
structure IndicatorSet where
  shortMa : List (Option ℚ)
  longMa : List (Option ℚ)
  goldenCross : List Bool
  deathCross : List Bool
  rsi : List (Option ℚ)
  macd : List ℚ
  signalLine : List ℚ
  fib : Option (List ℚ)
  lastClose : ℚ
deriving DecidableEq, Repr

/-- The indicator pipeline of `plot_stock_data` on a fetched close-price
series (`fib` is `none` when `max()`/`min()` of an empty series are NaN;
the pipeline fails with `IndexError` when the signal loop reads the last
element of an empty series). -/
def plotCore (shortWindow longWindow : ℕ) (prices : List ℚ) :
    Except PlotError IndicatorSet :=
  let closes := prices.map some
  let shortMa := rollingMean shortWindow closes
  let longMa := rollingMean longWindow closes
  let golden := golden_cross shortMa longMa
  let death := death_cross shortMa longMa
  let rsi := calculate_rsi prices
  let (macd, signalLine) := calculate_macd prices
  let fib :=
    match prices.max?, prices.min? with
    | some mx, some mn => some (fibLevels mx mn)
    | _, _ => none
  match prices.getLast? with
  | none => .error .indexError
  | some lastP => .ok ⟨shortMa, longMa, golden, death, rsi, macd, signalLine, fib, lastP⟩

end MarketMetrics

namespace MarketMetrics

/-! ## Helper lemmas -/

theorem getD_range_map {α : Type} (f : ℕ → α) (n i : ℕ) (d : α) :
    ((List.range n).map f).getD i d = if i < n then f i else d := by
  by_cases h : i < n
  · simp [List.getD_eq_getElem?_getD, List.getElem?_map, List.getElem?_range h, h]
  · rw [List.getD_eq_getElem?_getD, List.getElem?_eq_none (by simpa using Nat.le_of_not_lt h)]
    simp [h]

theorem get_range_map {α : Type} (f : ℕ → α) (n i : ℕ)
    (h : i < ((List.range n).map f).length) :
    ((List.range n).map f).get ⟨i, h⟩ = f i := by
  simp

theorem getD_replicate_q (c : ℚ) (n i : ℕ) (d : ℚ) :
    (List.replicate n c).getD i d = if i < n then c else d := by
  by_cases h : i < n
  · simp [List.getD_eq_getElem?_getD, List.getElem?_replicate, h]
  · simp [List.getD_eq_getElem?_getD, List.getElem?_replicate, h]

theorem getD_map_optionMap (g : ℚ → ℚ) (l : List (Option ℚ)) (i : ℕ) :
    (l.map (Option.map g)).getD i none = Option.map g (l.getD i none) := by
  cases hin : l[i]? <;>
    simp [List.getD_eq_getElem?_getD, List.getElem?_map, hin]

theorem optList_map_some (l : List ℕ) (F : ℕ → Option ℚ) (G : ℕ → ℚ)
    (h : ∀ j ∈ l, F j = some (G j)) : optList (l.map F) = some (l.map G) := by
  induction l with
  | nil => rfl
  | cons a as ih =>
    rw [List.map_cons, List.map_cons, h a (by simp), optList,
      ih (fun j hj => h j (by simp [hj]))]
    rfl

theorem emaAux_replicate (alpha c : ℚ) (n : ℕ) :
    emaAux alpha c (List.replicate n c) = List.replicate n c := by
  induction n with
  | zero => rfl
  | succ m ih =>
    have hv : alpha * c + (1 - alpha) * c = c := by ring
    simp only [List.replicate_succ, emaAux, hv, ih]

theorem ema_replicate (span : ℕ) (c : ℚ) (n : ℕ) :
    ema span (List.replicate n c) = List.replicate n c := by
  cases n with
  | zero => rfl
  | succ m => simp only [List.replicate_succ, ema, emaAux_replicate]

theorem zipWith_sub_replicate (a b : ℚ) (n : ℕ) :
    List.zipWith (fun x y => x - y) (List.replicate n a) (List.replicate n b) =
      List.replicate n (a - b) := by
  induction n with
  | zero => rfl
  | succ m ih => simp only [List.replicate_succ, List.zipWith_cons_cons, ih]

end MarketMetrics

namespace MarketMetrics

/-- C9: every Fibonacci retracement level is the scalar
`max_price - (max_price - min_price) * ratio` for the five fixed ratios,
and for `max_price = 100`, `min_price = 0` the levels are exactly
`[76.4, 61.8, 50.0, 38.2, 21.4]`. -/
theorem fibLevels_spec :
    (∀ maxPrice minPrice : ℚ, fibLevels maxPrice minPrice =
      [maxPrice - (maxPrice - minPrice) * (236/1000),
       maxPrice - (maxPrice - minPrice) * (382/1000),
       maxPrice - (maxPrice - minPrice) * (5/10),
       maxPrice - (maxPrice - minPrice) * (618/1000),
       maxPrice - (maxPrice - minPrice) * (786/1000)]) ∧
    fibLevels 100 0 = [764/10, 618/10, 50, 382/10, 214/10] := by
  refine ⟨fun maxPrice minPrice => rfl, ?_⟩
  norm_num [fibLevels, fibRatios]

/-- C2: on a perfectly flat price series both `macd` and `signal_line`
are exactly zero at every index, and both are index-aligned with the
input (the EMAs are `alpha = 2/(span+1)`, unadjusted, first-value
seeded, as defined by `ema`). -/
theorem calculate_macd_flat (c : ℚ) (n : ℕ) :
    (calculate_macd (List.replicate n c)).1 = List.replicate n 0 ∧
    (calculate_macd (List.replicate n c)).2 = List.replicate n 0 ∧
    (calculate_macd (List.replicate n c)).1.length = n ∧
    (calculate_macd (List.replicate n c)).2.length = n := by
  have hmacd : (calculate_macd (List.replicate n c)).1 = List.replicate n 0 := by
    show List.zipWith (fun a b => a - b) (ema 12 (List.replicate n c))
        (ema 26 (List.replicate n c)) = List.replicate n 0
    rw [ema_replicate, ema_replicate, zipWith_sub_replicate, sub_self]
  have hsig : (calculate_macd (List.replicate n c)).2 = List.replicate n 0 := by
    show ema 9 (List.zipWith (fun a b => a - b) (ema 12 (List.replicate n c))
        (ema 26 (List.replicate n c))) = List.replicate n 0
    rw [ema_replicate, ema_replicate, zipWith_sub_replicate, sub_self, ema_replicate]
  exact ⟨hmacd, hsig, by rw [hmacd]; simp, by rw [hsig]; simp⟩

/-- C10: golden-cross and death-cross event series computed from the
same pair of aligned series are never simultaneously true at any index
(this covers both the price-MA instantiation and the MACD/signal-line
instantiation, which use the same two formulas). -/
theorem cross_mutually_exclusive (a b : List (Option ℚ)) (t : ℕ) :
    (golden_cross a b).getD t false = false ∨
    (death_cross a b).getD t false = false := by
  unfold golden_cross death_cross
  rw [getD_range_map, getD_range_map]
  by_cases ht : t < a.length
  · simp only [ht, if_true]
    cases hx : a.getD t none with
    | none => simp [optGt, optLt, hx]
    | some x =>
      cases hy : b.getD t none with
      | none => simp [optGt, optLt, hx, hy]
      | some y =>
        by_cases hxy : y < x
        · right
          simp [optLt, hx, hy, not_lt.mpr (le_of_lt hxy)]
        · left
          simp [optGt, hx, hy, hxy]
  · simp [ht]

/-- C7: on an empty price series the pipeline fails — but with the
`IndexError` of the last-element accesses in the Fibonacci-signal loop,
not with an `InsufficientDataError` (which the code never defines or
raises); and a non-empty series shorter than the moving-average windows
is not signalled either: the pipeline succeeds with all-NA series. -/
theorem plotCore_insufficient_data :
    plotCore 50 200 ([] : List ℚ) = .error .indexError ∧
    plotCore 50 200 [5] =
      .ok ⟨[none], [none], [false], [false], [none], [0], [0],
        some [5, 5, 5, 5, 5], 5⟩ := by
  have hmacd : calculate_macd [5] = ([0], [0]) := by
    simp [calculate_macd, ema, emaAux]
  have hfib : fibLevels 5 5 = [5, 5, 5, 5, 5] := by
    norm_num [fibLevels, fibRatios]
  have hok : plotCore 50 200 [5] =
      .ok ⟨rollingMean 50 [some 5], rollingMean 200 [some 5],
        golden_cross (rollingMean 50 [some 5]) (rollingMean 200 [some 5]),
        death_cross (rollingMean 50 [some 5]) (rollingMean 200 [some 5]),
        calculate_rsi [5], (calculate_macd [5]).1, (calculate_macd [5]).2,
        some (fibLevels 5 5), 5⟩ := rfl
  refine ⟨rfl, ?_⟩
  rw [hok, hmacd, hfib]
  rfl

/-- C4 counterexample: the claim says the token `"3m"` (bare unit `m`)
must raise `InvalidPeriodError`, but `re.match(r"(\d+)([dmy])", "3m")`
succeeds with unit `m` (months, 30-day approximation), so `resolve`
returns a date range. -/
theorem resolve_3m_ok :
    resolve ⟨20000, 0⟩ "3m" = .ok ⟨19910, 20000, 90⟩ := by
  rfl

end MarketMetrics

namespace MarketMetrics

theorem parsePeriod_unit {s : List Char} {n : ℕ} {u : Char}
    (h : parsePeriod s = some (n, u)) : u = 'd' ∨ u = 'm' ∨ u = 'y' := by
  simp only [parsePeriod] at h
  by_cases hd : (s.takeWhile Char.isDigit).isEmpty
  · simp [hd] at h
  · rw [if_neg hd] at h
    rcases hrest : s.dropWhile Char.isDigit with _ | ⟨c, cs⟩ <;> rw [hrest] at h
    · cases h
    · have h2 : (if c = 'd' ∨ c = 'm' ∨ c = 'y'
          then some (digitsToNat (s.takeWhile Char.isDigit), c)
          else none) = some (n, u) := h
      by_cases hc : c = 'd' ∨ c = 'm' ∨ c = 'y'
      · rw [if_pos hc] at h2
        simp only [Option.some.injEq, Prod.mk.injEq] at h2
        obtain ⟨-, rfl⟩ := h2
        exact hc
      · rw [if_neg hc] at h2
        cases h2

theorem parsePeriod_ne_special {s : String} {p : ℕ × Char}
    (h : parsePeriod s.data = some p) : s ≠ "ytd" ∧ s ≠ "max" := by
  constructor
  · rintro rfl
    rw [show parsePeriod "ytd".data = none from rfl] at h
    cases h
  · rintro rfl
    rw [show parsePeriod "max".data = none from rfl] at h
    cases h

/-- C3: `golden_cross[t]` is true exactly when both points at `t-1` and
`t` are defined with `A[t-1] < B[t-1]` and `A[t] > B[t]` (dually for
`death_cross`); index 0 is never a cross and an NA at `t-1` or `t`
yields false; and on `A = [1,1,3,3]`, `B = [2,2,2,2]` golden_cross is
true only at index 2 and death_cross is true nowhere. -/
theorem cross_characterization (a b : List (Option ℚ)) (_hlen : a.length = b.length) :
    (∀ t (h : t < (golden_cross a b).length),
      (golden_cross a b).get ⟨t, h⟩ = true ↔
        (0 < t ∧ ∃ pa pb ca cb,
          a.getD (t - 1) none = some pa ∧ b.getD (t - 1) none = some pb ∧
          a.getD t none = some ca ∧ b.getD t none = some cb ∧
          pa < pb ∧ cb < ca)) ∧
    (∀ t (h : t < (death_cross a b).length),
      (death_cross a b).get ⟨t, h⟩ = true ↔
        (0 < t ∧ ∃ pa pb ca cb,
          a.getD (t - 1) none = some pa ∧ b.getD (t - 1) none = some pb ∧
          a.getD t none = some ca ∧ b.getD t none = some cb ∧
          pb < pa ∧ ca < cb)) ∧
    golden_cross [some 1, some 1, some 3, some 3] [some 2, some 2, some 2, some 2] =
      [false, false, true, false] ∧
    death_cross [some 1, some 1, some 3, some 3] [some 2, some 2, some 2, some 2] =
      [false, false, false, false] := by
  refine ⟨?_, ?_, by decide, by decide⟩
  · intro t h
    have hg : (golden_cross a b).get ⟨t, h⟩ =
        (optLt (shiftPrev a t) (shiftPrev b t) &&
          optGt (a.getD t none) (b.getD t none)) := by
      simp [golden_cross]
    rw [hg]
    rcases t with _ | k
    · simp [shiftPrev, optLt]
    · simp only [shiftPrev, Nat.succ_ne_zero, if_false, Nat.succ_sub_one]
      cases hpa : a.getD k none <;> cases hpb : b.getD k none <;>
        cases hca : a.getD (k + 1) none <;> cases hcb : b.getD (k + 1) none <;>
          simp [optLt, optGt, hpa, hpb, hca, hcb]
  · intro t h
    have hd : (death_cross a b).get ⟨t, h⟩ =
        (optGt (shiftPrev a t) (shiftPrev b t) &&
          optLt (a.getD t none) (b.getD t none)) := by
      simp [death_cross]
    rw [hd]
    rcases t with _ | k
    · simp [shiftPrev, optGt]
    · simp only [shiftPrev, Nat.succ_ne_zero, if_false, Nat.succ_sub_one]
      cases hpa : a.getD k none <;> cases hpb : b.getD k none <;>
        cases hca : a.getD (k + 1) none <;> cases hcb : b.getD (k + 1) none <;>
          simp [optLt, optGt, hpa, hpb, hca, hcb]

/-- Witness for C3 at the claim's concrete input. -/
theorem cross_characterization_witness :
    golden_cross [some 1, some 1, some 3, some 3] [some 2, some 2, some 2, some 2] =
      [false, false, true, false] ∧
    death_cross [some 1, some 1, some 3, some 3] [some 2, some 2, some 2, some 2] =
      [false, false, false, false] :=
  ⟨(cross_characterization [some 1, some 1, some 3, some 3]
      [some 2, some 2, some 2, some 2] rfl).2.2.1,
   (cross_characterization [some 1, some 1, some 3, some 3]
      [some 2, some 2, some 2, some 2] rfl).2.2.2⟩

/-- C4 (amended): `resolve` fails exactly when the token is neither
`"ytd"` nor `"max"` nor of the form `<digits><unit>` with unit in
`{d, m, y}` (trailing characters ignored, digit count unconstrained);
the error carries the token verbatim.  A bare `m` unit (as in `"3m"`)
is accepted as months, contrary to the original claim (see
`resolve_3m_ok`). -/
theorem resolve_invalid_iff (now : Timestamp) (s : String) :
    (s ≠ "ytd" → s ≠ "max" → parsePeriod s.data = none →
      resolve now s = .error (.invalidFormat s)) ∧
    (∀ e, resolve now s = .error e →
      e = .invalidFormat s ∧ s ≠ "ytd" ∧ s ≠ "max" ∧ parsePeriod s.data = none) := by
  constructor
  · intro h1 h2 h3
    simp [resolve, calculateStartDays, h1, h2, h3]
  · intro e he
    by_cases h1 : s = "ytd"
    · simp [resolve, calculateStartDays, h1] at he
    · by_cases h2 : s = "max"
      · simp [resolve, calculateStartDays, h1, h2] at he
      · cases hp : parsePeriod s.data with
        | none =>
          simp only [resolve, calculateStartDays, h1, h2, hp, if_false,
            if_neg h1, if_neg h2] at he
          exact ⟨(Except.error.inj he).symm, h1, h2, rfl⟩
        | some p =>
          obtain ⟨n, u⟩ := p
          rcases parsePeriod_unit hp with rfl | rfl | rfl <;>
            simp [resolve, calculateStartDays, h1, h2, hp] at he

/-- Witness for C4: `"invalid"` and `"5w"` raise with the token in the
message. -/
theorem resolve_invalid_witness :
    resolve ⟨20000, 0⟩ "invalid" = .error (.invalidFormat "invalid") ∧
    resolve ⟨20000, 0⟩ "5w" = .error (.invalidFormat "5w") :=
  ⟨(resolve_invalid_iff ⟨20000, 0⟩ "invalid").1 (by decide) (by decide) rfl,
   (resolve_invalid_iff ⟨20000, 0⟩ "5w").1 (by decide) (by decide) rfl⟩

/-- C5: for every token parsing as `<n><unit>` with `n > 0` and unit
`d`/`m`/`y` (which covers `"<n>d"`, `"<n>mo"`, `"<n>y"`: the regex
consumes the `m` of `mo`), the resolved range starts `n`, `n*30`, or
`n*365` days before now, strictly before now, with `length_in_days`
equal to that same delta. -/
theorem resolve_valid_period (now : Timestamp) (s : String) (n : ℕ) (u : Char)
    (hn : 0 < n) (hp : parsePeriod s.data = some (n, u)) :
    resolve now s = .ok ⟨now.days - n * unitFactor u, now.days, n * unitFactor u⟩ ∧
    now.days - n * unitFactor u < now.days := by
  obtain ⟨h1, h2⟩ := parsePeriod_ne_special hp
  rcases parsePeriod_unit hp with rfl | rfl | rfl <;>
    refine ⟨?_, by simp [unitFactor]; omega⟩ <;>
      simp [resolve, calculateStartDays, h1, h2, hp, unitFactor]

/-- Witness for C5 at `"2d"`, `"3mo"`, `"4y"`. -/
theorem resolve_valid_period_witness :
    resolve ⟨20000, 0⟩ "2d" = .ok ⟨19998, 20000, 2⟩ ∧
    resolve ⟨20000, 0⟩ "3mo" = .ok ⟨19910, 20000, 90⟩ ∧
    resolve ⟨20000, 0⟩ "4y" = .ok ⟨18540, 20000, 1460⟩ := by
  refine ⟨?_, ?_, ?_⟩
  · have h := (resolve_valid_period ⟨20000, 0⟩ "2d" 2 'd' (by decide) rfl).1
    rw [h, show unitFactor 'd' = 1 from rfl]
    norm_num
  · have h := (resolve_valid_period ⟨20000, 0⟩ "3mo" 3 'm' (by decide) rfl).1
    rw [h, show unitFactor 'm' = 30 from rfl]
    norm_num
  · have h := (resolve_valid_period ⟨20000, 0⟩ "4y" 4 'y' (by decide) rfl).1
    rw [h, show unitFactor 'y' = 365 from rfl]
    norm_num

/-- C6: `resolve("ytd", now)` starts at January 1 of now's year,
`resolve("max", now)` starts at 1990-01-01, the result ignores the
time-of-day component of `now`, and every successful resolution ends at
now's calendar date. -/
theorem resolve_ytd_max (now : Timestamp) :
    resolve now "ytd" =
      .ok ⟨daysFromCivil (yearOfDays now.days) 1 1, now.days,
        now.days - daysFromCivil (yearOfDays now.days) 1 1⟩ ∧
    resolve now "max" =
      .ok ⟨daysFromCivil 1990 1 1, now.days, now.days - daysFromCivil 1990 1 1⟩ ∧
    (∀ p s2, resolve ⟨now.days, s2⟩ p = resolve now p) ∧
    (∀ p dr, resolve now p = .ok dr → dr.endDays = now.days) := by
  refine ⟨rfl, rfl, fun p s2 => rfl, fun p dr h => ?_⟩
  unfold resolve at h
  cases hc : calculateStartDays now p <;> rw [hc] at h
  · cases h
  · injection h with h
    subst h
    rfl

/-- Witness for C6 at a concrete now (2024-10-04, with a nonzero
time-of-day). -/
theorem resolve_ytd_max_witness :
    resolve ⟨20000, 500⟩ "ytd" = .ok ⟨19723, 20000, 277⟩ ∧
    resolve ⟨20000, 500⟩ "max" = .ok ⟨7305, 20000, 12695⟩ ∧
    (⟨7305, 20000, 12695⟩ : DateRange).endDays = 20000 := by
  have h := resolve_ytd_max ⟨20000, 500⟩
  refine ⟨?_, ?_, ?_⟩
  · rw [h.1]
    rfl
  · rw [h.2.1]
    rfl
  · exact h.2.2.2 "max" _ (by rw [h.2.1]; rfl)

end MarketMetrics

namespace MarketMetrics

theorem length_calculate_rsi (ps : List ℚ) :
    (calculate_rsi ps).length = ps.length := by
  simp [calculate_rsi]

theorem length_gains (ps : List ℚ) : (gains ps).length = ps.length := by
  simp [gains, diffs]

theorem length_losses (ps : List ℚ) : (losses ps).length = ps.length := by
  simp [losses, diffs]

theorem gains_getD (ps : List ℚ) (i : ℕ) (h1 : 1 ≤ i) (h2 : i < ps.length) :
    (gains ps).getD i none = some (max (ps.getD i 0 - ps.getD (i - 1) 0) 0) := by
  unfold gains
  rw [getD_map_optionMap]
  unfold diffs
  rw [getD_range_map]
  have hne : ¬ i = 0 := by omega
  simp [h2, hne]

theorem losses_getD (ps : List ℚ) (i : ℕ) (h1 : 1 ≤ i) (h2 : i < ps.length) :
    (losses ps).getD i none = some (max (-(ps.getD i 0 - ps.getD (i - 1) 0)) 0) := by
  unfold losses
  rw [getD_map_optionMap]
  unfold diffs
  rw [getD_range_map]
  have hne : ¬ i = 0 := by omega
  simp [h2, hne]

theorem rollingMean_getD_mean (w : ℕ) (xs : List (Option ℚ)) (t : ℕ)
    (ht : t < xs.length) (hw : ¬ t + 1 < w) :
    (rollingMean w xs).getD t none =
      match optList ((List.range w).map (fun j => xs.getD (t + 1 - w + j) none)) with
      | none => none
      | some vs => some (vs.sum / w) := by
  unfold rollingMean
  rw [getD_range_map]
  simp [ht, hw]

theorem rollingMean14_getD_of_entries (xs : List (Option ℚ)) (t : ℕ) (G : ℕ → ℚ)
    (ht : t < xs.length) (h14 : 14 ≤ t)
    (hentries : ∀ j, j < 14 → xs.getD (t + 1 - 14 + j) none = some (G j)) :
    (rollingMean 14 xs).getD t none = some (((List.range 14).map G).sum / 14) := by
  rw [rollingMean_getD_mean 14 xs t ht (by omega)]
  rw [optList_map_some (List.range 14) _ G
    (fun j hj => hentries j (List.mem_range.mp hj))]
  norm_num

theorem calculate_rsi_get (ps : List ℚ) (t : ℕ) (h : t < (calculate_rsi ps).length) :
    (calculate_rsi ps).get ⟨t, h⟩ =
      match (rollingMean 14 (gains ps)).getD t none,
            (rollingMean 14 (losses ps)).getD t none with
      | some g, some l =>
        if l = 0 then (if g = 0 then none else some 100)
        else some (100 - 100 / (1 + g / l))
      | _, _ => none := by
  simp [calculate_rsi]

end MarketMetrics

namespace MarketMetrics

theorem rollingMean14_zero_entries (xs : List (Option ℚ)) (t : ℕ)
    (ht : t < xs.length) (h14 : 14 ≤ t)
    (hz : ∀ j, j < 14 → xs.getD (t + 1 - 14 + j) none = some 0) :
    (rollingMean 14 xs).getD t none = some 0 := by
  rw [rollingMean14_getD_of_entries xs t (fun _ => 0) ht h14 hz]
  norm_num

theorem flat_getD_zero_gains (c : ℚ) (n t : ℕ) (h14 : 14 ≤ t) (htn : t < n) :
    (rollingMean 14 (gains (List.replicate n c))).getD t none = some 0 := by
  apply rollingMean14_zero_entries _ _ (by rw [length_gains, List.length_replicate]; exact htn) h14
  intro j hj
  rw [gains_getD _ _ (by omega) (by rw [List.length_replicate]; omega)]
  rw [getD_replicate_q, getD_replicate_q]
  rw [if_pos (by omega : t + 1 - 14 + j < n), if_pos (by omega : t + 1 - 14 + j - 1 < n)]
  simp

theorem flat_getD_zero_losses (c : ℚ) (n t : ℕ) (h14 : 14 ≤ t) (htn : t < n) :
    (rollingMean 14 (losses (List.replicate n c))).getD t none = some 0 := by
  apply rollingMean14_zero_entries _ _ (by rw [length_losses, List.length_replicate]; exact htn) h14
  intro j hj
  rw [losses_getD _ _ (by omega) (by rw [List.length_replicate]; omega)]
  rw [getD_replicate_q, getD_replicate_q]
  rw [if_pos (by omega : t + 1 - 14 + j < n), if_pos (by omega : t + 1 - 14 + j - 1 < n)]
  simp

theorem mono_delta_pos (ps : List ℚ)
    (hmono : ∀ i, i + 1 < ps.length → ps.getD i 0 < ps.getD (i + 1) 0)
    (t j : ℕ) (h14 : 14 ≤ t) (htn : t < ps.length) (hj : j < 14) :
    ps.getD (t + 1 - 14 + j - 1) 0 < ps.getD (t + 1 - 14 + j) 0 := by
  have h := hmono (t + 1 - 14 + j - 1) (by omega)
  have heq : t + 1 - 14 + j - 1 + 1 = t + 1 - 14 + j := by omega
  rwa [heq] at h

theorem mono_getD_gains (ps : List ℚ)
    (hmono : ∀ i, i + 1 < ps.length → ps.getD i 0 < ps.getD (i + 1) 0)
    (t : ℕ) (h14 : 14 ≤ t) (htn : t < ps.length) :
    ∃ S : ℚ, 0 < S ∧ (rollingMean 14 (gains ps)).getD t none = some (S / 14) := by
  refine ⟨((List.range 14).map (fun j =>
      max (ps.getD (t + 1 - 14 + j) 0 - ps.getD (t + 1 - 14 + j - 1) 0) 0)).sum, ?_, ?_⟩
  · apply List.sum_pos
    · intro x hx
      obtain ⟨j, hj, rfl⟩ := List.mem_map.mp hx
      have hjr := List.mem_range.mp hj
      have hd := mono_delta_pos ps hmono t j h14 htn hjr
      exact lt_of_lt_of_le (by linarith) (le_max_left _ _)
    · simp
  · apply rollingMean14_getD_of_entries _ _ _ (by rw [length_gains]; exact htn) h14
    intro j hj
    exact gains_getD _ _ (by omega) (by omega)

theorem mono_getD_losses (ps : List ℚ)
    (hmono : ∀ i, i + 1 < ps.length → ps.getD i 0 < ps.getD (i + 1) 0)
    (t : ℕ) (h14 : 14 ≤ t) (htn : t < ps.length) :
    (rollingMean 14 (losses ps)).getD t none = some 0 := by
  apply rollingMean14_zero_entries _ _ (by rw [length_losses]; exact htn) h14
  intro j hj
  rw [losses_getD _ _ (by omega) (by omega)]
  have hd := mono_delta_pos ps hmono t j h14 htn hj
  have hmax : max (-(ps.getD (t + 1 - 14 + j) 0 - ps.getD (t + 1 - 14 + j - 1) 0)) 0 = 0 :=
    max_eq_right (by linarith)
  rw [hmax]

/-- C1: `calculate_rsi` is index-aligned with its input; on a perfectly
flat series the RSI is NA at every index from the warm-up point (14)
onward; on a strictly monotonically increasing series the RSI is non-NA
after the warm-up window and lies in `[0, 100]` at every defined
index. -/
theorem calculate_rsi_spec :
    (∀ ps : List ℚ, (calculate_rsi ps).length = ps.length) ∧
    (∀ (c : ℚ) (n t : ℕ), 14 ≤ t →
      ∀ h : t < (calculate_rsi (List.replicate n c)).length,
      (calculate_rsi (List.replicate n c)).get ⟨t, h⟩ = none) ∧
    (∀ ps : List ℚ, (∀ i, i + 1 < ps.length → ps.getD i 0 < ps.getD (i + 1) 0) →
      ∀ t, 14 ≤ t → ∀ h : t < (calculate_rsi ps).length,
      ∃ r, (calculate_rsi ps).get ⟨t, h⟩ = some r ∧ 0 ≤ r ∧ r ≤ 100) := by
  refine ⟨length_calculate_rsi, ?_, ?_⟩
  · intro c n t h14 h
    have htn : t < n := by
      rw [length_calculate_rsi, List.length_replicate] at h
      exact h
    rw [calculate_rsi_get]
    rw [flat_getD_zero_gains c n t h14 htn, flat_getD_zero_losses c n t h14 htn]
    simp
  · intro ps hmono t h14 h
    have htn : t < ps.length := by
      rw [length_calculate_rsi] at h
      exact h
    obtain ⟨S, hS, hg⟩ := mono_getD_gains ps hmono t h14 htn
    refine ⟨100, ?_, by norm_num, le_refl 100⟩
    rw [calculate_rsi_get, hg, mono_getD_losses ps hmono t h14 htn]
    have hSne : ¬ S / 14 = 0 := (div_pos hS (by norm_num)).ne'
    simp [hSne]

/-- Witness for C1: the flat series `replicate 15 5` has NA RSI at
index 14; the strictly increasing series `[0,…,14]` has RSI defined and
within `[0, 100]` at index 14. -/
theorem calculate_rsi_spec_witness :
    (calculate_rsi (List.replicate 15 (5 : ℚ))).get
      ⟨14, by rw [length_calculate_rsi]; decide⟩ = none ∧
    ∃ r, (calculate_rsi [0, 1, 2, 3, 4, 5, 6, 7, 8, 9, 10, 11, 12, 13, 14]).get
      ⟨14, by rw [length_calculate_rsi]; decide⟩ = some r ∧ 0 ≤ r ∧ r ≤ 100 := by
  constructor
  · exact calculate_rsi_spec.2.1 5 15 14 (by norm_num) _
  · exact calculate_rsi_spec.2.2 [0, 1, 2, 3, 4, 5, 6, 7, 8, 9, 10, 11, 12, 13, 14]
      (by intro i hi
          simp only [List.length_cons, List.length_nil] at hi
          have hi2 : i < 14 := by omega
          interval_cases i <;> decide)
      14 (by norm_num) _

end MarketMetrics

namespace MarketMetrics

/-- C8 counterexample: with `length_in_days = 400 >= 365` and the
two-point series `[1, 2]`, `pct_change()` has a single observation, so
the sample standard deviation (`ddof=1`) is NaN and the annualized
volatility is NaN — not a finite non-negative number as claimed; and
with `length_in_days = 100 < 365` the output is the sentinel
`NA_ANNUAL_VOLATILITY`, which is the number `0.0`, not a NaN. -/
theorem annualVolatility_counterexample :
    annualVolatility 400 [1, 2] = none ∧
    annualVolatility 100 [1, 2] = some ((NA_ANNUAL_VOLATILITY : ℚ) : ℝ) ∧
    (NA_ANNUAL_VOLATILITY : ℚ) = 0 := by
  refine ⟨?_, ?_, rfl⟩
  · have h : dailyVar [1, 2] = none := rfl
    rw [annualVolatility, if_pos (by norm_num [YEAR_IN_DAYS]), h]
    rfl
  · rw [annualVolatility, if_neg (by norm_num [YEAR_IN_DAYS])]

/-- C8 (amended): the annualized-volatility output is always the
sentinel `NA_ANNUAL_VOLATILITY = 0.0` (a finite number, not a NaN) when
`length_in_days < 365`; when `length_in_days >= 365` and the series has
at least 3 points, all positive, it is the defined, non-negative value
`pct_change().std() * sqrt(252)`. -/
theorem annualVolatility_spec (d : ℤ) (ps : List ℚ) :
    (d < YEAR_IN_DAYS → annualVolatility d ps = some ((NA_ANNUAL_VOLATILITY : ℚ) : ℝ)) ∧
    (YEAR_IN_DAYS ≤ d → 3 ≤ ps.length → (∀ x ∈ ps, 0 < x) →
      ∃ v : ℚ, dailyVar ps = some v ∧
        annualVolatility d ps =
          some (Real.sqrt (v : ℝ) * Real.sqrt (TRADING_DAYS_IN_YEAR : ℝ)) ∧
        0 ≤ Real.sqrt (v : ℝ) * Real.sqrt (TRADING_DAYS_IN_YEAR : ℝ)) := by
  constructor
  · intro hd
    rw [annualVolatility, if_neg (not_le.mpr hd)]
  · intro hd hlen hpos
    have hopt : optList (pctChanges ps) = some ((List.range (ps.length - 1)).map
        (fun i => (ps.getD (i + 1) 0 - ps.getD i 0) / ps.getD i 0)) := by
      unfold pctChanges
      apply optList_map_some
      intro j hj
      have hjr := List.mem_range.mp hj
      have hjl : j < ps.length := by omega
      have hmem : ps.getD j 0 ∈ ps := by
        rw [List.getD_eq_getElem?_getD, List.getElem?_eq_getElem hjl]
        exact List.getElem_mem hjl
      have hne : ¬ ps.getD j 0 = 0 := ne_of_gt (hpos _ hmem)
      rw [if_neg hne]
    set xs := (List.range (ps.length - 1)).map
      (fun i => (ps.getD (i + 1) 0 - ps.getD i 0) / ps.getD i 0) with hxs
    have hxlen : ¬ xs.length < 2 := by
      rw [hxs]
      simp only [List.length_map, List.length_range]
      omega
    have h1 : dailyVar ps = sampleVar xs := by
      unfold dailyVar
      rw [hopt]
    have h2 : ∃ v : ℚ, sampleVar xs = some v := by
      unfold sampleVar
      rw [if_neg hxlen]
      exact ⟨_, rfl⟩
    obtain ⟨v, hv⟩ := h2
    refine ⟨v, by rw [h1, hv], ?_, mul_nonneg (Real.sqrt_nonneg _) (Real.sqrt_nonneg _)⟩
    rw [annualVolatility, if_pos hd, h1, hv]
    rfl

/-- Witness for C8 (amended) at a short range and at a 400-day range
with the positive three-point series `[1, 2, 4]`. -/
theorem annualVolatility_spec_witness :
    annualVolatility 50 ([] : List ℚ) = some ((NA_ANNUAL_VOLATILITY : ℚ) : ℝ) ∧
    ∃ v : ℚ, dailyVar [1, 2, 4] = some v ∧
      annualVolatility 400 [1, 2, 4] =
        some (Real.sqrt (v : ℝ) * Real.sqrt (TRADING_DAYS_IN_YEAR : ℝ)) ∧
      0 ≤ Real.sqrt (v : ℝ) * Real.sqrt (TRADING_DAYS_IN_YEAR : ℝ) :=
  ⟨(annualVolatility_spec 50 []).1 (by norm_num [YEAR_IN_DAYS]),
   (annualVolatility_spec 400 [1, 2, 4]).2 (by norm_num [YEAR_IN_DAYS])
     (by norm_num) (by decide)⟩

end MarketMetrics
